import Mathlib

/-
Shallow embedding of the Invoice Reimbursement Analysis service
(`main.py`).  The endpoint `POST /analyze_invoices/` is the function
`analyze_invoices` below.  External effects are passed in as oracles:

  * `PdfReadOutcome` models what PyPDF2 produces for one PDF file
    (`extract_text_from_pdf`, main.py lines 93-111): either the
    per-page extracted texts (a page yielding `None` contributes `""`,
    line 108) or the message of the exception raised while reading.
  * `ZipOutcome` models `zipfile.ZipFile(...).namelist()`
    (lines 248-249): the entry names, or the message of the exception
    raised when the archive cannot be opened.
  * `memberFail` models `zip_ref.extract(member, dir)` (line 253):
    `some msg` means extracting that member raises with message `msg`.
  * `LLMCallOutcome` models one call of the Gemini API plus
    `json.loads` of its reply (lines 143-157).  `json.loads` can return
    any JSON value, not only an object; the non-object cases matter for
    lines 160-163 and 287-296 and are modelled precisely below.

File paths: the real code joins a fresh `tempfile.mkdtemp()` directory
into every path.  The model identifies a file by its path relative to
that directory (the policy by its upload filename, an invoice by its
archive member name); the temp-dir component of the path strings that
appear inside error messages is elided.
-/

namespace InvoiceApp

/-- JSON scalar values, enough to express the verdict dictionaries the
code builds and the model replies the claims need. -/
inductive JVal where
  | s (v : String)
  | n (v : Int)
  | b (v : Bool)
  | null
  deriving DecidableEq, Repr

/-- A parsed JSON object (a Python dict), as an association list. -/
abbrev JObj := List (String × JVal)

/-- One element of the `analysis_results` list.  `json.loads` can yield
a non-object JSON value; when such a value slips through
`analyze_invoice_with_llm` (see `LLMCallOutcome.okNonObj`) it is
appended to `analysis_results` as-is (line 287), so the result list is
not guaranteed to hold only objects. -/
inductive JTop where
  | obj (o : JObj)
  | raw (rendering : String)
  deriving DecidableEq, Repr

/-- Python `dict.get(k)` / key lookup on the association list. -/
def jget (k : String) : JObj → Option JVal
  | [] => none
  | (k', v) :: rest => if k' = k then some v else jget k rest

/-- Keys of a verdict object, in order. -/
def jkeys (o : JObj) : List String := o.map Prod.fst

/-- Python `str.lower` (ASCII case folding), implemented on the
character list so that proofs can evaluate it. -/
def pyLower (s : String) : String := String.mk (s.data.map Char.toLower)

/-- Python `str.endswith`. -/
def pyEndsWith (s suffix : String) : Bool := List.isSuffixOf suffix.data s.data

/-- Python `str.startswith`. -/
def pyStartsWith (s pre : String) : Bool := List.isPrefixOf pre.data s.data

/-- Python `os.path.basename` on a POSIX relative path (line 266): the
characters after the last slash. -/
def pyBasename (p : String) : String :=
  String.mk ((p.data.reverse.takeWhile (fun c => c ≠ '/')).reverse)

/-- Python truthiness of `s.strip()`: `isBlankText s = true` models
`not s.strip()`, i.e. `s` is empty or whitespace-only (lines 242, 269). -/
def isBlankText (s : String) : Bool := s.toList.all Char.isWhitespace

/-- Outcome of PyPDF2 reading one PDF file: the extracted text of each
page in document order, or the exception message if the reader raised. -/
inductive PdfReadOutcome where
  | pages (texts : List String)
  | failure (msg : String)
  deriving Repr

/-- Result of `extract_text_from_pdf`: the text, or the message of the
`Exception` the function raises (line 111). -/
inductive ExtractOutcome where
  | ok (text : String)
  | err (msg : String)
  deriving DecidableEq, Repr

/-- `extract_text_from_pdf` (main.py lines 93-111): concatenates the
page texts; on any reader failure raises
`Exception(f"Failed to extract text from PDF {pdf_path}: {e}")`. -/
def extract_text_from_pdf (pdf_path : String) (pdf : PdfReadOutcome) : ExtractOutcome :=
  match pdf with
  | .pages texts => .ok (String.join texts)
  | .failure e => .err ("Failed to extract text from PDF " ++ pdf_path ++ ": " ++ e)

/-- Outcome of one Gemini call together with `json.loads` of the reply
text (lines 143-157):

  * `ok reply`: the call succeeded and the reply parsed to a JSON
    object `reply`.
  * `okNonObj rendering getErrMsg`: the call succeeded and the reply
    parsed to a non-object value (a JSON string or array) on which the
    membership test `"Invoice identifier" not in analysis_result`
    (line 160) evaluates to `False`, so the value, identified by its
    rendering, is returned unchanged; `getErrMsg` is the message of the
    `AttributeError` that `.get("Reimbursement Status")` later raises
    on it in the loop (line 290).
  * `malformed raw`: the call succeeded but `json.loads` raised
    `JSONDecodeError` (line 164).
  * `failed msg`: the call itself (or accessing the reply text, or the
    identifier insertion on a non-object value, which raises
    `TypeError`) raised; `msg` is `str(e)` of that exception
    (line 170). -/
inductive LLMCallOutcome where
  | ok (reply : JObj)
  | okNonObj (rendering getErrMsg : String)
  | malformed (raw : String)
  | failed (msg : String)
  deriving DecidableEq, Repr

/-- `analyze_invoice_with_llm` (lines 114-175): returns the parsed
reply, inserting the `"Invoice identifier"` key when absent
(lines 160-161); turns a malformed reply or a failed call into an
`HTTPException(500, detail)` whose `str()` rendering
(`f"{status_code}: {detail}"`) is the error payload. -/
def analyze_invoice_with_llm (invoice_filename : String) (call : LLMCallOutcome) :
    Except String JTop :=
  match call with
  | .ok reply =>
    if (jget "Invoice identifier" reply).isSome then Except.ok (JTop.obj reply)
    else Except.ok (JTop.obj (reply ++ [("Invoice identifier", JVal.s invoice_filename)]))
  | .okNonObj rendering _ => Except.ok (JTop.raw rendering)
  | .malformed _ =>
    Except.error ("500: LLM returned malformed JSON for invoice " ++ invoice_filename ++
      ". Please try again or check prompt.")
  | .failed e =>
    Except.error ("500: Failed to analyze invoice " ++ invoice_filename ++ " with LLM: " ++ e)

/-- Oracles describing the per-invoice external world: for each archive
member name, the PyPDF2 outcome for the extracted file and the LLM
outcome for its analysis. -/
structure InvoiceEnv where
  pdf : String → PdfReadOutcome
  llm : String → LLMCallOutcome

/-- Verdict synthesized for an invoice with no readable text
(lines 271-276).  Note the lowercase snake_case keys. -/
def emptyTextVerdict (invoice_filename : String) : JObj :=
  [("invoice_identifier", JVal.s invoice_filename),
   ("reimbursement_status", JVal.s "Declined"),
   ("reimbursable_amount", JVal.n 0),
   ("reason", JVal.s "Could not extract readable text from this invoice PDF.")]

/-- Verdict synthesized when processing one invoice raised (lines
300-305).  Note the capitalized keys. -/
def errorVerdict (invoice_filename msg : String) : JObj :=
  [("Invoice identifier", JVal.s invoice_filename),
   ("Reimbursement Status", JVal.s "Declined"),
   ("Reimbursable Amount", JVal.n 0),
   ("Reason", JVal.s ("Processing error: " ++ msg))]

/-- Status-count increments for one LLM verdict (lines 290-296):
`(fully, partially, declined)` deltas from
`invoice_analysis.get("Reimbursement Status")`. -/
def statusIncs (v : JObj) : Nat × Nat × Nat :=
  match jget "Reimbursement Status" v with
  | some (JVal.s s) =>
    if s = "Fully Reimbursed" then (1, 0, 0)
    else if s = "Partially Reimbursed" then (0, 1, 0)
    else if s = "Declined" then (0, 0, 1)
    else (0, 0, 0)
  | _ => (0, 0, 0)

/-- Which construction path produced one loop iteration's verdicts. -/
inductive StepPath where
  | blank
  | llmObj
  | llmRaw
  | failed
  deriving DecidableEq, Repr

/-- What one iteration of the per-invoice loop (lines 265-307) appends
and counts: the verdicts appended to `analysis_results` in order, the
three count increments, whether the Gemini call was attempted, and the
construction path taken. -/
structure StepResult where
  verdicts : List JTop
  fullyD : Nat
  partialD : Nat
  declinedD : Nat
  llmCalled : Bool
  path : StepPath
  deriving DecidableEq, Repr

/-- Message of the `AttributeError` raised by `.get` on a non-object
reply; meaningful only in the `okNonObj` case, which is the only one
that reaches it. -/
def rawGetError : LLMCallOutcome → String
  | .okNonObj _ e => e
  | _ => ""

/-- One iteration of the per-invoice loop (lines 265-307) for the
member `invoice_path`.  Failure anywhere inside the iteration is caught
by the `except` at line 298 and becomes an `errorVerdict`; a non-object
reply is first appended as-is (line 287) and then `.get` raises, so two
entries are appended for that invoice. -/
def processInvoice (env : InvoiceEnv) (invoice_path : String) : StepResult :=
  let invoice_filename := pyBasename invoice_path
  match extract_text_from_pdf invoice_path (env.pdf invoice_path) with
  | .err e =>
    ⟨[JTop.obj (errorVerdict invoice_filename e)], 0, 0, 1, false, StepPath.failed⟩
  | .ok text =>
    if isBlankText text then
      ⟨[JTop.obj (emptyTextVerdict invoice_filename)], 0, 0, 1, false, StepPath.blank⟩
    else
      match analyze_invoice_with_llm invoice_filename (env.llm invoice_path) with
      | Except.error e =>
        ⟨[JTop.obj (errorVerdict invoice_filename e)], 0, 0, 1, true, StepPath.failed⟩
      | Except.ok (JTop.obj verdict) =>
        ⟨[JTop.obj verdict], (statusIncs verdict).1, (statusIncs verdict).2.1,
          (statusIncs verdict).2.2, true, StepPath.llmObj⟩
      | Except.ok (JTop.raw rendering) =>
        ⟨[JTop.raw rendering,
          JTop.obj (errorVerdict invoice_filename (rawGetError (env.llm invoice_path)))],
          0, 0, 1, true, StepPath.llmRaw⟩

/-- Mutable state of the loop at lines 260-307. -/
structure LoopState where
  results : List JTop
  fullyCount : Nat
  partialCount : Nat
  declinedCount : Nat
  llmCalls : List String
  deriving DecidableEq, Repr

def initLoopState : LoopState := ⟨[], 0, 0, 0, []⟩

/-- The per-invoice loop (lines 265-307) folded over the extracted
member list. -/
def processLoop (env : InvoiceEnv) : List String → LoopState → LoopState
  | [], st => st
  | p :: rest, st =>
    let r := processInvoice env p
    processLoop env rest
      { results := st.results ++ r.verdicts
        fullyCount := st.fullyCount + r.fullyD
        partialCount := st.partialCount + r.partialD
        declinedCount := st.declinedCount + r.declinedD
        llmCalls := st.llmCalls ++ (if r.llmCalled then [p] else []) }

/-- Overall status computation (lines 309-317). -/
def overallStatus (results : List JTop) (fullyCount declinedCount : Nat) : String :=
  if results.length > 0 then
    if fullyCount = results.length then "All Fully Reimbursed"
    else if declinedCount = results.length then "All Declined"
    else "Mixed Status"
  else "No Invoices Processed"

/-- Archive-entry filter (lines 251-252): process a member iff its name
ends in ".pdf" case-insensitively and it is not macOS metadata. -/
def isInvoiceEntry (m : String) : Bool :=
  pyEndsWith (pyLower m) ".pdf" && !(pyStartsWith m "__MACOSX/")

/-- The extraction loop over `zip_ref.namelist()` (lines 249-254):
matching members are extracted in order; a raise from
`zip_ref.extract` aborts the whole request. -/
def extractMembers (fail : String → Option String) : List String → Except String (List String)
  | [] => Except.ok []
  | m :: rest =>
    if isInvoiceEntry m then
      match fail m with
      | some e => Except.error e
      | none =>
        match extractMembers fail rest with
        | Except.ok fs => Except.ok (m :: fs)
        | Except.error e => Except.error e
    else extractMembers fail rest

/-- Outcome of opening the uploaded ZIP (line 248). -/
inductive ZipOutcome where
  | entries (names : List String)
  | bad (msg : String)
  deriving Repr

/-- One request to `POST /analyze_invoices/`: the two upload names and
the oracles for every external interaction. -/
structure RequestInput where
  policyFilename : String
  policyPdf : PdfReadOutcome
  zip : ZipOutcome
  memberFail : String → Option String
  env : InvoiceEnv

/-- A Python-level abort of the handler body: an `HTTPException`
(re-raised as-is, line 326) or any other exception (turned into a 500,
line 330). -/
inductive PyErr where
  | http (status : Nat) (detail : String)
  | exn (msg : String)
  deriving DecidableEq, Repr

/-- Body of the `try` block of `analyze_invoices` (lines 224-322),
paired with the list of members for which the Gemini call was
attempted.  Mirrors the source order: save uploads, check the policy
filename (line 239), extract and check the policy text (241-244), open
and filter the archive (248-254), reject an empty match list (256-257),
run the loop, compute the overall status. -/
def bodyRun (inp : RequestInput) : Except PyErr (String × List JTop) × List String :=
  if !(pyEndsWith (pyLower inp.policyFilename) ".pdf") then
    (Except.error (PyErr.http 400 "HR Policy file must be a PDF."), [])
  else
    match extract_text_from_pdf inp.policyFilename inp.policyPdf with
    | .err e => (Except.error (PyErr.exn e), [])
    | .ok policy_text =>
      if isBlankText policy_text then
        (Except.error (PyErr.http 400
          "Could not extract text from HR Policy PDF. It might be empty or malformed."), [])
      else
        match inp.zip with
        | .bad e => (Except.error (PyErr.exn e), [])
        | .entries ns =>
          match extractMembers inp.memberFail ns with
          | Except.error e => (Except.error (PyErr.exn e), [])
          | Except.ok invoice_files =>
            if invoice_files.isEmpty then
              (Except.error (PyErr.http 400
                "No PDF invoice files found in the provided ZIP archive."), [])
            else
              let st := processLoop inp.env invoice_files initLoopState
              (Except.ok (overallStatus st.results st.fullyCount st.declinedCount, st.results),
                st.llmCalls)

/-- HTTP-level response of the endpoint. -/
inductive Response where
  | ok (overall_status : String) (invoice_analyses : List JTop)
  | httpError (status : Nat) (detail : String)
  deriving DecidableEq, Repr

/-- Observable world state after the request: whether the request's
temporary directory still exists, and which members the model was
invoked for. -/
structure World where
  tempDirExists : Bool
  llmCalls : List String
  deriving DecidableEq, Repr

/-- The `finally` block (lines 331-335): remove the temporary directory
if it exists. -/
def runFinally (tempDirCreated : Bool) : Bool :=
  if tempDirCreated then false else tempDirCreated

/-- Exception-to-response mapping of the handlers at lines 324-330. -/
def toResponse : Except PyErr (String × List JTop) → Response
  | Except.ok (ov, res) => Response.ok ov res
  | Except.error (PyErr.http s d) => Response.httpError s d
  | Except.error (PyErr.exn msg) => Response.httpError 500 ("Internal server error: " ++ msg)

/-- The endpoint `analyze_invoices` (lines 206-335): run the body under
try / except / finally.  `tempfile.mkdtemp()` at line 226 creates the
directory, so it exists when the `finally` block runs, on every exit
path. -/
def analyze_invoices (inp : RequestInput) : Response × World :=
  (toResponse (bodyRun inp).1,
   { tempDirExists := runFinally true, llmCalls := (bodyRun inp).2 })

/-! Claim-side views of the data.  A verdict records its status under
the schema key `"Reimbursement Status"` on the model and error paths
and under `"reimbursement_status"` on the empty-text path (same for
amount and reason), so the field accessors read the capitalized key
first and fall back to the snake_case one. -/

/-- Status field of a verdict object. -/
def statusOf (o : JObj) : Option JVal :=
  match jget "Reimbursement Status" o with
  | some v => some v
  | none => jget "reimbursement_status" o

/-- Reason field of a verdict object. -/
def reasonOf (o : JObj) : Option JVal :=
  match jget "Reason" o with
  | some v => some v
  | none => jget "reason" o

/-- Amount field of a verdict object. -/
def amountOf (o : JObj) : Option JVal :=
  match jget "Reimbursable Amount" o with
  | some v => some v
  | none => jget "reimbursable_amount" o

/-- Status of a result-list element; a non-object element has none. -/
def statusOfT : JTop → Option JVal
  | JTop.obj o => statusOf o
  | JTop.raw _ => none

/-- Reason of a result-list element; a non-object element has none. -/
def reasonOfT : JTop → Option JVal
  | JTop.obj o => reasonOf o
  | JTop.raw _ => none

/-- Boolean test that a result-list element's status is the string `s`. -/
def hasStatus (s : String) (v : JTop) : Bool :=
  match statusOfT v with
  | some (JVal.s t) => t == s
  | _ => false

/-- The pre-loop validations of the handler all pass: the policy
filename looks like a PDF, its text extracts non-blank, the archive
opens, every matching member extracts, and at least one member matches. -/
def preloopOk (inp : RequestInput) : Prop :=
  pyEndsWith (pyLower inp.policyFilename) ".pdf" = true ∧
  (∃ t, extract_text_from_pdf inp.policyFilename inp.policyPdf = ExtractOutcome.ok t ∧
    isBlankText t = false) ∧
  (∃ ns fs, inp.zip = ZipOutcome.entries ns ∧
    extractMembers inp.memberFail ns = Except.ok fs ∧ fs ≠ [])

/-- The member list the per-invoice loop iterates (empty when the
request never reaches the loop). -/
def invoiceFilesOf (inp : RequestInput) : List String :=
  match inp.zip with
  | ZipOutcome.entries ns =>
    match extractMembers inp.memberFail ns with
    | Except.ok fs => fs
    | Except.error _ => []
  | ZipOutcome.bad _ => []

/-- Loop state after the last invoice. -/
def finalStateOf (inp : RequestInput) : LoopState :=
  processLoop inp.env (invoiceFilesOf inp) initLoopState

/-- Overall status the handler computes for the batch. -/
def overallOf (inp : RequestInput) : String :=
  overallStatus (finalStateOf inp).results (finalStateOf inp).fullyCount
    (finalStateOf inp).declinedCount

/-- The `invoice_analyses` list of a successful batch, as the
concatenation of what each loop iteration appends. -/
def batchVerdicts (inp : RequestInput) : List JTop :=
  ((invoiceFilesOf inp).map (fun p => (processInvoice inp.env p).verdicts)).flatten

/-- Number of archive entries that pass the PDF filter. -/
def pdfEntryCount (inp : RequestInput) : Nat :=
  match inp.zip with
  | ZipOutcome.entries ns => (ns.filter isInvoiceEntry).length
  | ZipOutcome.bad _ => 0

/-- The invoice at member `m` extracts successfully to empty or
whitespace-only text. -/
def blankTextAt (env : InvoiceEnv) (m : String) : Bool :=
  match extract_text_from_pdf m (env.pdf m) with
  | ExtractOutcome.ok t => isBlankText t
  | ExtractOutcome.err _ => false

/-- Message of the exception the loop body raises for member `m`, when
one is raised: extraction failure, model-call failure, malformed reply,
or the late AttributeError on a non-object reply. -/
def processFailure (env : InvoiceEnv) (m : String) : Option String :=
  match extract_text_from_pdf m (env.pdf m) with
  | ExtractOutcome.err e => some e
  | ExtractOutcome.ok text =>
    if isBlankText text then none
    else
      match analyze_invoice_with_llm (pyBasename m) (env.llm m) with
      | Except.error e => some e
      | Except.ok (JTop.obj _) => none
      | Except.ok (JTop.raw _) => some (rawGetError (env.llm m))

/-- The result-list element `v` is (a copy of) the model's own reply
for member `m`, possibly with the identifier key inserted. -/
def isModelReply (env : InvoiceEnv) (m : String) (v : JTop) : Prop :=
  match env.llm m with
  | LLMCallOutcome.ok o =>
    v = JTop.obj o ∨ v = JTop.obj (o ++ [("Invoice identifier", JVal.s (pyBasename m))])
  | LLMCallOutcome.okNonObj r _ => v = JTop.raw r
  | _ => False

/-- Every JSON-object reply of the model leaves the snake_case status
key unused, as the instructed schema does. -/
def capitalKeysOnly (env : InvoiceEnv) : Prop :=
  ∀ m o, env.llm m = LLMCallOutcome.ok o → jget "reimbursement_status" o = none

/-! Concrete batches used below to witness and to refute claims.  Each
one fixes the two uploads and the external oracles of one request. -/

/-- A schema-conforming model verdict for invoice `a.pdf`. -/
def happyVerdict : JObj :=
  [("Invoice identifier", JVal.s "a.pdf"),
   ("Reimbursement Status", JVal.s "Fully Reimbursed"),
   ("Reimbursable Amount", JVal.n 100),
   ("Reason", JVal.s "Covered by the meal clause of the policy.")]

/-- Batch with one readable invoice and a schema-conforming reply. -/
def inHappy : RequestInput :=
  { policyFilename := "policy.pdf"
    policyPdf := PdfReadOutcome.pages ["policy text"]
    zip := ZipOutcome.entries ["a.pdf", "__MACOSX/b.pdf", "notes.txt"]
    memberFail := fun _ => none
    env := { pdf := fun _ => PdfReadOutcome.pages ["meal invoice"]
             llm := fun _ => LLMCallOutcome.ok happyVerdict } }

/-- A valid JSON-object model reply that uses the snake_case status key. -/
def snakeReply : JObj := [("reimbursement_status", JVal.s "Declined")]

/-- The verdict the handler stores for `snakeReply` (identifier inserted). -/
def snakeResult : JObj :=
  [("reimbursement_status", JVal.s "Declined"), ("Invoice identifier", JVal.s "a.pdf")]

/-- Batch whose single model reply is `snakeReply`. -/
def inSnake : RequestInput :=
  { policyFilename := "policy.pdf"
    policyPdf := PdfReadOutcome.pages ["policy text"]
    zip := ZipOutcome.entries ["a.pdf"]
    memberFail := fun _ => none
    env := { pdf := fun _ => PdfReadOutcome.pages ["meal invoice"]
             llm := fun _ => LLMCallOutcome.ok snakeReply } }

/-- Batch whose single model reply is the valid JSON string
`"Invoice identifier"`: a non-object value that passes the membership
check of line 160 and later makes `.get` raise. -/
def inRaw : RequestInput :=
  { policyFilename := "policy.pdf"
    policyPdf := PdfReadOutcome.pages ["policy text"]
    zip := ZipOutcome.entries ["a.pdf"]
    memberFail := fun _ => none
    env := { pdf := fun _ => PdfReadOutcome.pages ["meal invoice"]
             llm := fun _ => LLMCallOutcome.okNonObj "Invoice identifier"
               "'str' object has no attribute 'get'" } }

/-- Batch whose single invoice extracts to empty text. -/
def inBlank : RequestInput :=
  { policyFilename := "policy.pdf"
    policyPdf := PdfReadOutcome.pages ["policy text"]
    zip := ZipOutcome.entries ["a.pdf"]
    memberFail := fun _ => none
    env := { pdf := fun _ => PdfReadOutcome.pages [""]
             llm := fun _ => LLMCallOutcome.ok happyVerdict } }

/-- A model reply whose only content is an empty reason. -/
def emptyReasonReply : JObj := [("Reason", JVal.s "")]

/-- The verdict the handler stores for `emptyReasonReply`. -/
def emptyReasonResult : JObj :=
  [("Reason", JVal.s ""), ("Invoice identifier", JVal.s "a.pdf")]

/-- Batch whose single model reply is `emptyReasonReply`. -/
def inReasonEmpty : RequestInput :=
  { policyFilename := "policy.pdf"
    policyPdf := PdfReadOutcome.pages ["policy text"]
    zip := ZipOutcome.entries ["a.pdf"]
    memberFail := fun _ => none
    env := { pdf := fun _ => PdfReadOutcome.pages ["meal invoice"]
             llm := fun _ => LLMCallOutcome.ok emptyReasonReply } }

/-- Batch whose single invoice fails text extraction. -/
def inFail : RequestInput :=
  { policyFilename := "policy.pdf"
    policyPdf := PdfReadOutcome.pages ["policy text"]
    zip := ZipOutcome.entries ["a.pdf"]
    memberFail := fun _ => none
    env := { pdf := fun _ => PdfReadOutcome.failure "boom"
             llm := fun _ => LLMCallOutcome.ok happyVerdict } }

/-- Request whose policy upload is not named like a PDF. -/
def inNonPdfPolicy : RequestInput :=
  { policyFilename := "policy.docx"
    policyPdf := PdfReadOutcome.pages ["policy text"]
    zip := ZipOutcome.entries ["a.pdf"]
    memberFail := fun _ => none
    env := { pdf := fun _ => PdfReadOutcome.pages ["meal invoice"]
             llm := fun _ => LLMCallOutcome.ok happyVerdict } }

/-- Request whose archive holds no processable PDF entry. -/
def inNoPdfZip : RequestInput :=
  { policyFilename := "policy.pdf"
    policyPdf := PdfReadOutcome.pages ["policy text"]
    zip := ZipOutcome.entries ["readme.txt", "__MACOSX/b.pdf"]
    memberFail := fun _ => none
    env := { pdf := fun _ => PdfReadOutcome.pages ["meal invoice"]
             llm := fun _ => LLMCallOutcome.ok happyVerdict } }

/-- Batch with one blank-text invoice and one failing invoice. -/
def inMixed : RequestInput :=
  { policyFilename := "policy.pdf"
    policyPdf := PdfReadOutcome.pages ["policy text"]
    zip := ZipOutcome.entries ["blank.pdf", "bad.pdf"]
    memberFail := fun _ => none
    env := { pdf := fun m =>
               if m = "blank.pdf" then PdfReadOutcome.pages [""]
               else PdfReadOutcome.failure "boom"
             llm := fun _ => LLMCallOutcome.ok happyVerdict } }

/-! Structural lemmas. -/

theorem jget_append_single (k k' : String) (v : JVal) (a : JObj) (h : k' ≠ k) :
    jget k (a ++ [(k', v)]) = jget k a := by
  induction a with
  | nil => simp [jget, h]
  | cons hd tl ih =>
    obtain ⟨k'', v''⟩ := hd
    by_cases hk : k'' = k <;> simp [jget, hk, ih]

theorem statusOf_errorVerdict (f e : String) :
    statusOf (errorVerdict f e) = some (JVal.s "Declined") := rfl

theorem amountOf_errorVerdict (f e : String) :
    amountOf (errorVerdict f e) = some (JVal.n 0) := rfl

theorem reasonOf_errorVerdict (f e : String) :
    reasonOf (errorVerdict f e) = some (JVal.s ("Processing error: " ++ e)) := rfl

theorem statusOf_emptyTextVerdict (f : String) :
    statusOf (emptyTextVerdict f) = some (JVal.s "Declined") := rfl

theorem amountOf_emptyTextVerdict (f : String) :
    amountOf (emptyTextVerdict f) = some (JVal.n 0) := rfl

theorem reasonOf_emptyTextVerdict (f : String) :
    reasonOf (emptyTextVerdict f) =
      some (JVal.s "Could not extract readable text from this invoice PDF.") := rfl

theorem processing_error_ne_empty (e : String) : "Processing error: " ++ e ≠ "" := by
  intro h
  have h1 : ("Processing error: " ++ e).length = 0 := by rw [h]; rfl
  rw [String.length_append] at h1
  have h2 : ("Processing error: " : String).length = 18 := rfl
  omega

theorem processInvoice_verdicts_ne_nil (env : InvoiceEnv) (m : String) :
    (processInvoice env m).verdicts ≠ [] := by
  simp only [processInvoice]
  split
  · simp
  · split
    · simp
    · split <;> simp

theorem processLoop_results (env : InvoiceEnv) (fs : List String) : ∀ st : LoopState,
    (processLoop env fs st).results =
      st.results ++ (fs.map (fun p => (processInvoice env p).verdicts)).flatten := by
  induction fs with
  | nil => intro st; simp [processLoop]
  | cons p rest ih =>
    intro st
    simp only [processLoop]
    rw [ih]
    simp [List.append_assoc]

theorem processLoop_fully (env : InvoiceEnv) (fs : List String) : ∀ st : LoopState,
    (processLoop env fs st).fullyCount =
      st.fullyCount + (fs.map (fun p => (processInvoice env p).fullyD)).sum := by
  induction fs with
  | nil => intro st; simp [processLoop]
  | cons p rest ih =>
    intro st
    simp only [processLoop]
    rw [ih]
    simp [Nat.add_assoc]

theorem processLoop_declined (env : InvoiceEnv) (fs : List String) : ∀ st : LoopState,
    (processLoop env fs st).declinedCount =
      st.declinedCount + (fs.map (fun p => (processInvoice env p).declinedD)).sum := by
  induction fs with
  | nil => intro st; simp [processLoop]
  | cons p rest ih =>
    intro st
    simp only [processLoop]
    rw [ih]
    simp [Nat.add_assoc]

theorem processLoop_calls (env : InvoiceEnv) (fs : List String) : ∀ st : LoopState,
    (processLoop env fs st).llmCalls =
      st.llmCalls ++ fs.filter (fun p => (processInvoice env p).llmCalled) := by
  induction fs with
  | nil => intro st; simp [processLoop]
  | cons p rest ih =>
    intro st
    simp only [processLoop]
    rw [ih]
    cases hc : (processInvoice env p).llmCalled <;>
      simp [List.filter_cons, hc, List.append_assoc]

theorem finalState_results (inp : RequestInput) :
    (finalStateOf inp).results = batchVerdicts inp := by
  unfold finalStateOf batchVerdicts
  rw [processLoop_results]
  simp [initLoopState]

theorem finalState_calls (inp : RequestInput) :
    (finalStateOf inp).llmCalls =
      (invoiceFilesOf inp).filter (fun p => (processInvoice inp.env p).llmCalled) := by
  unfold finalStateOf
  rw [processLoop_calls]
  simp [initLoopState]

theorem mem_batchVerdicts_of_step (inp : RequestInput) (m : String) (v : JTop)
    (hm : m ∈ invoiceFilesOf inp) (hv : v ∈ (processInvoice inp.env m).verdicts) :
    v ∈ batchVerdicts inp := by
  unfold batchVerdicts
  rw [List.mem_flatten]
  exact ⟨_, List.mem_map_of_mem _ hm, hv⟩

theorem extractMembers_ok (fail : String → Option String) :
    ∀ (ns fs : List String), extractMembers fail ns = Except.ok fs →
      fs = ns.filter isInvoiceEntry := by
  intro ns
  induction ns with
  | nil =>
    intro fs h
    simp only [extractMembers] at h
    cases h
    rfl
  | cons m rest ih =>
    intro fs h
    simp only [extractMembers] at h
    cases hm : isInvoiceEntry m with
    | false =>
      rw [hm] at h
      simp only [Bool.false_eq_true, if_false] at h
      simp [List.filter_cons, hm, ih fs h]
    | true =>
      rw [hm] at h
      simp only [if_true] at h
      cases hf : fail m with
      | some e => rw [hf] at h; cases h
      | none =>
        rw [hf] at h
        cases hr : extractMembers fail rest with
        | error e => rw [hr] at h; cases h
        | ok fs' =>
          rw [hr] at h
          cases h
          simp [List.filter_cons, hm, ih fs' hr]

theorem extractMembers_of_no_match (fail : String → Option String) :
    ∀ ns : List String, ns.filter isInvoiceEntry = [] →
      extractMembers fail ns = Except.ok [] := by
  intro ns
  induction ns with
  | nil => intro _; rfl
  | cons m rest ih =>
    intro h
    rw [List.filter_cons] at h
    cases hm : isInvoiceEntry m with
    | true => rw [hm] at h; simp at h
    | false =>
      rw [hm] at h
      simp only [Bool.false_eq_true, if_false] at h
      simp only [extractMembers, hm, Bool.false_eq_true, if_false]
      exact ih h


theorem bodyRun_of_preloop (inp : RequestInput) (h : preloopOk inp) :
    bodyRun inp =
      (Except.ok (overallOf inp, (finalStateOf inp).results), (finalStateOf inp).llmCalls) := by
  obtain ⟨h1, ⟨t, h2, h3⟩, ⟨ns, fs, hz, hx, hne⟩⟩ := h
  have hfiles : invoiceFilesOf inp = fs := by
    simp only [invoiceFilesOf, hz, hx]
  unfold bodyRun overallOf finalStateOf
  rw [hfiles]
  simp only [h1, h2, h3, hz, hx, Bool.not_true, Bool.false_eq_true, if_false]
  cases fs with
  | nil => exact absurd rfl hne
  | cons f fs' => rfl

theorem preloop_of_ok (inp : RequestInput) (x : String × List JTop)
    (h : (bodyRun inp).1 = Except.ok x) : preloopOk inp := by
  unfold bodyRun at h
  cases h1 : pyEndsWith (pyLower inp.policyFilename) ".pdf" with
  | false => rw [h1] at h; simp at h
  | true =>
    simp only [h1, Bool.not_true, Bool.false_eq_true, if_false] at h
    cases h2 : extract_text_from_pdf inp.policyFilename inp.policyPdf with
    | err e => rw [h2] at h; simp at h
    | ok t =>
      simp only [h2] at h
      cases h3 : isBlankText t with
      | true => rw [h3] at h; simp at h
      | false =>
        simp only [h3, Bool.false_eq_true, if_false] at h
        cases hz : inp.zip with
        | bad e => rw [hz] at h; simp at h
        | entries ns =>
          simp only [hz] at h
          cases hx : extractMembers inp.memberFail ns with
          | error e => rw [hx] at h; simp at h
          | ok fs =>
            simp only [hx] at h
            cases hemp : fs.isEmpty with
            | true => rw [hemp] at h; simp at h
            | false =>
              refine ⟨h1, ⟨t, h2, h3⟩, ns, fs, hz, hx, ?_⟩
              intro hnil
              rw [hnil] at hemp
              simp at hemp

theorem analyze_ok_inversion (inp : RequestInput) (ov : String) (res : List JTop)
    (h : (analyze_invoices inp).1 = Response.ok ov res) :
    preloopOk inp ∧ ov = overallOf inp ∧ res = (finalStateOf inp).results := by
  simp only [analyze_invoices] at h
  cases hb : (bodyRun inp).1 with
  | error e =>
    rw [hb] at h
    cases e <;> simp [toResponse] at h
  | ok x =>
    obtain ⟨xo, xr⟩ := x
    have hp := preloop_of_ok inp (xo, xr) hb
    have hrw := bodyRun_of_preloop inp hp
    have hx1 : (Except.ok (overallOf inp, (finalStateOf inp).results) :
        Except PyErr (String × List JTop)) = Except.ok (xo, xr) := by
      rw [← hb, hrw]
    injection hx1 with hx2
    injection hx2 with hxo hxr
    rw [hb] at h
    simp only [toResponse, Response.ok.injEq] at h
    exact ⟨hp, by rw [← h.1, ← hxo], by rw [← h.2, ← hxr]⟩


theorem hasStatus_eq_true (s : String) (v : JTop) :
    hasStatus s v = true ↔ statusOfT v = some (JVal.s s) := by
  unfold hasStatus
  cases hv : statusOfT v with
  | none => simp
  | some jv =>
    cases jv with
    | s t => simp [beq_iff_eq]
    | n w => simp
    | b w => simp
    | null => simp

theorem processInvoice_of_blank (env : InvoiceEnv) (m : String)
    (h : blankTextAt env m = true) :
    processInvoice env m =
      ⟨[JTop.obj (emptyTextVerdict (pyBasename m))], 0, 0, 1, false, StepPath.blank⟩ := by
  unfold blankTextAt at h
  unfold processInvoice
  cases hx : extract_text_from_pdf m (env.pdf m) with
  | err e => rw [hx] at h; simp at h
  | ok t =>
    simp only [hx] at h
    simp only [hx, h, if_true]

theorem processInvoice_of_failure (env : InvoiceEnv) (m : String) (e : String)
    (h : processFailure env m = some e) :
    JTop.obj (errorVerdict (pyBasename m) e) ∈ (processInvoice env m).verdicts := by
  unfold processFailure at h
  unfold processInvoice
  cases hx : extract_text_from_pdf m (env.pdf m) with
  | err e' =>
    simp only [hx] at h ⊢
    injection h with h
    subst h
    simp
  | ok t =>
    simp only [hx] at h ⊢
    cases hb : isBlankText t with
    | true => rw [hb] at h; simp at h
    | false =>
      simp only [hb, Bool.false_eq_true, if_false] at h ⊢
      cases ha : analyze_invoice_with_llm (pyBasename m) (env.llm m) with
      | error e' =>
        simp only [ha] at h ⊢
        injection h with h
        subst h
        simp
      | ok jt =>
        cases jt with
        | obj o =>
          simp only [ha] at h
          exact Option.noConfusion h
        | raw r =>
          simp only [ha] at h ⊢
          injection h with h
          subst h
          simp

theorem step_len_one (env : InvoiceEnv) (m : String)
    (hnr : ∀ r g, env.llm m ≠ LLMCallOutcome.okNonObj r g) :
    (processInvoice env m).verdicts.length = 1 := by
  unfold processInvoice
  cases hx : extract_text_from_pdf m (env.pdf m) with
  | err e => simp
  | ok t =>
    simp only []
    cases hb : isBlankText t with
    | true => simp [hb]
    | false =>
      simp only [hb, Bool.false_eq_true, if_false]
      cases ha : analyze_invoice_with_llm (pyBasename m) (env.llm m) with
      | error e => simp
      | ok jt =>
        cases jt with
        | obj o => simp
        | raw r =>
          exfalso
          cases hll : env.llm m with
          | ok reply =>
            simp only [analyze_invoice_with_llm, hll] at ha
            split at ha <;> simp at ha
          | okNonObj r' g' => exact hnr r' g' hll
          | malformed raw' => simp [analyze_invoice_with_llm, hll] at ha
          | failed msg' => simp [analyze_invoice_with_llm, hll] at ha

theorem step_reason (env : InvoiceEnv) (m : String) :
    ∀ v ∈ (processInvoice env m).verdicts,
      isModelReply env m v ∨ ∃ r, reasonOfT v = some (JVal.s r) ∧ r ≠ "" := by
  unfold processInvoice
  cases hx : extract_text_from_pdf m (env.pdf m) with
  | err e =>
    intro v hv
    simp only [List.mem_singleton] at hv
    subst hv
    right
    exact ⟨"Processing error: " ++ e, rfl, processing_error_ne_empty e⟩
  | ok t =>
    cases hb : isBlankText t with
    | true =>
      intro v hv
      simp only [hb, if_true, List.mem_singleton] at hv
      subst hv
      right
      refine ⟨"Could not extract readable text from this invoice PDF.", rfl, by decide⟩
    | false =>
      simp only [hb, Bool.false_eq_true, if_false]
      cases ha : analyze_invoice_with_llm (pyBasename m) (env.llm m) with
      | error e =>
        intro v hv
        simp only [List.mem_singleton] at hv
        subst hv
        right
        exact ⟨"Processing error: " ++ e, rfl, processing_error_ne_empty e⟩
      | ok jt =>
        cases jt with
        | obj o =>
          intro v hv
          simp only [List.mem_singleton] at hv
          subst hv
          left
          cases hll : env.llm m with
          | ok reply =>
            simp only [analyze_invoice_with_llm, hll] at ha
            simp only [isModelReply, hll]
            split at ha
            · left
              injection ha with ha
              injection ha with ha
              rw [ha]
            · right
              injection ha with ha
              injection ha with ha
              rw [ha]
          | okNonObj r' g' => simp [analyze_invoice_with_llm, hll] at ha
          | malformed raw' => simp [analyze_invoice_with_llm, hll] at ha
          | failed msg' => simp [analyze_invoice_with_llm, hll] at ha
        | raw r =>
          intro v hv
          simp only [List.mem_cons, List.not_mem_nil, or_false] at hv
          cases hv with
          | inl hv =>
            subst hv
            left
            cases hll : env.llm m with
            | ok reply =>
              simp only [analyze_invoice_with_llm, hll] at ha
              split at ha <;> simp at ha
            | okNonObj r' g' =>
              simp only [analyze_invoice_with_llm, hll] at ha
              injection ha with ha
              injection ha with ha
              simp only [isModelReply, hll]
              rw [ha]
            | malformed raw' => simp [analyze_invoice_with_llm, hll] at ha
            | failed msg' => simp [analyze_invoice_with_llm, hll] at ha
          | inr hv =>
            subst hv
            right
            exact ⟨"Processing error: " ++ rawGetError (env.llm m), rfl,
              processing_error_ne_empty _⟩

theorem statusIncs_fully (v : JObj) :
    (statusIncs v).1 =
      if jget "Reimbursement Status" v = some (JVal.s "Fully Reimbursed") then 1 else 0 := by
  unfold statusIncs
  cases hc : jget "Reimbursement Status" v with
  | none => simp
  | some jv =>
    cases jv with
    | s str =>
      by_cases h1 : str = "Fully Reimbursed"
      · simp [h1]
      · by_cases h2 : str = "Partially Reimbursed"
        · simp [h1, h2]
        · by_cases h3 : str = "Declined" <;> simp [h1, h2, h3]
    | n w => simp
    | b w => simp
    | null => simp

theorem statusIncs_declined (v : JObj) :
    (statusIncs v).2.2 =
      if jget "Reimbursement Status" v = some (JVal.s "Declined") then 1 else 0 := by
  unfold statusIncs
  cases hc : jget "Reimbursement Status" v with
  | none => simp
  | some jv =>
    cases jv with
    | s str =>
      by_cases h1 : str = "Fully Reimbursed"
      · simp [h1]
      · by_cases h2 : str = "Partially Reimbursed"
        · simp [h1, h2]
        · by_cases h3 : str = "Declined" <;> simp [h1, h2, h3]
    | n w => simp
    | b w => simp
    | null => simp

theorem step_countP (env : InvoiceEnv) (m : String)
    (H : ∀ o, env.llm m = LLMCallOutcome.ok o → jget "reimbursement_status" o = none) :
    (processInvoice env m).fullyD =
      List.countP (hasStatus "Fully Reimbursed") (processInvoice env m).verdicts ∧
    (processInvoice env m).declinedD =
      List.countP (hasStatus "Declined") (processInvoice env m).verdicts := by
  unfold processInvoice
  cases hx : extract_text_from_pdf m (env.pdf m) with
  | err e => exact ⟨rfl, rfl⟩
  | ok t =>
    cases hb : isBlankText t with
    | true => simp only [hb, if_true]; exact ⟨rfl, rfl⟩
    | false =>
      simp only [hb, Bool.false_eq_true, if_false]
      cases ha : analyze_invoice_with_llm (pyBasename m) (env.llm m) with
      | error e => exact ⟨rfl, rfl⟩
      | ok jt =>
        cases jt with
        | raw r => exact ⟨rfl, rfl⟩
        | obj verdict =>
          have hsnake : jget "reimbursement_status" verdict = none := by
            cases hll : env.llm m with
            | ok reply =>
              have hr := H reply hll
              simp only [analyze_invoice_with_llm, hll] at ha
              split at ha
              · injection ha with ha
                injection ha with ha
                rw [← ha]
                exact hr
              · injection ha with ha
                injection ha with ha
                rw [← ha]
                rw [jget_append_single _ _ _ _ (by decide)]
                exact hr
            | okNonObj r' g' => simp [analyze_invoice_with_llm, hll] at ha
            | malformed raw' => simp [analyze_invoice_with_llm, hll] at ha
            | failed msg' => simp [analyze_invoice_with_llm, hll] at ha
          have hstat : statusOf verdict = jget "Reimbursement Status" verdict := by
            unfold statusOf
            cases hc : jget "Reimbursement Status" verdict <;> simp [hc, hsnake]
          have hcount : ∀ s : String,
              List.countP (hasStatus s) [JTop.obj verdict] =
                if jget "Reimbursement Status" verdict = some (JVal.s s) then 1 else 0 := by
            intro s
            simp only [List.countP_cons, List.countP_nil, Nat.zero_add]
            by_cases hs : jget "Reimbursement Status" verdict = some (JVal.s s)
            · rw [if_pos hs]
              have ht : hasStatus s (JTop.obj verdict) = true := by
                rw [hasStatus_eq_true]
                show statusOf verdict = some (JVal.s s)
                rw [hstat]
                exact hs
              rw [ht]
              rfl
            · rw [if_neg hs]
              cases hh : hasStatus s (JTop.obj verdict) with
              | false => rfl
              | true =>
                exfalso
                have := (hasStatus_eq_true s (JTop.obj verdict)).mp hh
                rw [show statusOfT (JTop.obj verdict) = statusOf verdict from rfl, hstat] at this
                exact hs this
          constructor
          · show (statusIncs verdict).1 = _
            rw [statusIncs_fully, hcount]
          · show (statusIncs verdict).2.2 = _
            rw [statusIncs_declined, hcount]

theorem overallStatus_spec (res : List JTop) (f d : Nat)
    (hf : f = List.countP (hasStatus "Fully Reimbursed") res)
    (hd : d = List.countP (hasStatus "Declined") res) :
    (res ≠ [] →
      ((overallStatus res f d = "All Fully Reimbursed" ↔
         ∀ v ∈ res, statusOfT v = some (JVal.s "Fully Reimbursed")) ∧
       (overallStatus res f d = "All Declined" ↔
         ∀ v ∈ res, statusOfT v = some (JVal.s "Declined")) ∧
       (¬(∀ v ∈ res, statusOfT v = some (JVal.s "Fully Reimbursed")) →
        ¬(∀ v ∈ res, statusOfT v = some (JVal.s "Declined")) →
        overallStatus res f d = "Mixed Status"))) ∧
    (overallStatus res f d = "No Invoices Processed" ↔ res = []) := by
  subst hf hd
  cases res with
  | nil =>
    constructor
    · intro h; exact absurd rfl h
    · simp [overallStatus]
  | cons a l =>
    have hlen : (a :: l).length > 0 := by simp
    have hFiff : (List.countP (hasStatus "Fully Reimbursed") (a :: l) = (a :: l).length) ↔
        (∀ v ∈ a :: l, statusOfT v = some (JVal.s "Fully Reimbursed")) := by
      rw [List.countP_eq_length]
      constructor
      · intro hh v hv; exact (hasStatus_eq_true _ _).mp (hh v hv)
      · intro hh v hv; exact (hasStatus_eq_true _ _).mpr (hh v hv)
    have hDiff : (List.countP (hasStatus "Declined") (a :: l) = (a :: l).length) ↔
        (∀ v ∈ a :: l, statusOfT v = some (JVal.s "Declined")) := by
      rw [List.countP_eq_length]
      constructor
      · intro hh v hv; exact (hasStatus_eq_true _ _).mp (hh v hv)
      · intro hh v hv; exact (hasStatus_eq_true _ _).mpr (hh v hv)
    have hdisj : ¬((∀ v ∈ a :: l, statusOfT v = some (JVal.s "Fully Reimbursed")) ∧
        (∀ v ∈ a :: l, statusOfT v = some (JVal.s "Declined"))) := by
      rintro ⟨hA, hB⟩
      have h1 := hA a (by simp)
      have h2 := hB a (by simp)
      rw [h1] at h2
      injection h2 with h3
      injection h3 with h4
      exact absurd h4 (by decide)
    unfold overallStatus
    by_cases hF : List.countP (hasStatus "Fully Reimbursed") (a :: l) = (a :: l).length
    · rw [if_pos hlen, if_pos hF]
      constructor
      · intro _
        refine ⟨⟨fun _ => hFiff.mp hF, fun _ => rfl⟩, ?_, ?_⟩
        · constructor
          · intro hh; exact absurd hh (by decide)
          · intro hh; exact absurd ⟨hFiff.mp hF, hh⟩ hdisj
        · intro hnF _; exact absurd (hFiff.mp hF) hnF
      · constructor
        · intro hh; exact absurd hh (by decide)
        · intro hh; exact absurd hh (by simp)
    · rw [if_pos hlen, if_neg hF]
      by_cases hD : List.countP (hasStatus "Declined") (a :: l) = (a :: l).length
      · rw [if_pos hD]
        constructor
        · intro _
          refine ⟨?_, ⟨fun _ => hDiff.mp hD, fun _ => rfl⟩, ?_⟩
          · constructor
            · intro hh; exact absurd hh (by decide)
            · intro hh; exact absurd (hFiff.mpr hh) hF
          · intro _ hnD; exact absurd (hDiff.mp hD) hnD
        · constructor
          · intro hh; exact absurd hh (by decide)
          · intro hh; exact absurd hh (by simp)
      · rw [if_neg hD]
        constructor
        · intro _
          refine ⟨?_, ?_, fun _ _ => rfl⟩
          · constructor
            · intro hh; exact absurd hh (by decide)
            · intro hh; exact absurd (hFiff.mpr hh) hF
          · constructor
            · intro hh; exact absurd hh (by decide)
            · intro hh; exact absurd (hDiff.mpr hh) hD
        · constructor
          · intro hh; exact absurd hh (by decide)
          · intro hh; exact absurd hh (by simp)

theorem final_counts (inp : RequestInput) (H : capitalKeysOnly inp.env) :
    (finalStateOf inp).fullyCount =
      List.countP (hasStatus "Fully Reimbursed") (finalStateOf inp).results ∧
    (finalStateOf inp).declinedCount =
      List.countP (hasStatus "Declined") (finalStateOf inp).results := by
  unfold finalStateOf
  rw [processLoop_results, processLoop_fully, processLoop_declined]
  simp only [initLoopState, List.nil_append, Nat.zero_add]
  rw [List.countP_flatten, List.countP_flatten, List.map_map, List.map_map]
  constructor
  · refine congrArg List.sum (List.map_congr_left ?_)
    intro p _
    exact (step_countP inp.env p (fun o => H p o)).1
  · refine congrArg List.sum (List.map_congr_left ?_)
    intro p _
    exact (step_countP inp.env p (fun o => H p o)).2

theorem bodyRun_calls (inp : RequestInput) :
    (bodyRun inp).2 = [] ∨ (bodyRun inp).2 = (finalStateOf inp).llmCalls := by
  unfold bodyRun
  cases h1 : pyEndsWith (pyLower inp.policyFilename) ".pdf" with
  | false => left; simp [h1]
  | true =>
    simp only [h1, Bool.not_true, Bool.false_eq_true, if_false]
    cases h2 : extract_text_from_pdf inp.policyFilename inp.policyPdf with
    | err e => left; rfl
    | ok t =>
      simp only [h2]
      cases h3 : isBlankText t with
      | true => left; simp [h3]
      | false =>
        simp only [h3, Bool.false_eq_true, if_false]
        cases hz : inp.zip with
        | bad e => left; rfl
        | entries ns =>
          simp only [hz]
          cases hx : extractMembers inp.memberFail ns with
          | error e => left; rfl
          | ok fs =>
            simp only [hx]
            cases hemp : fs.isEmpty with
            | true => left; simp [hemp]
            | false =>
              right
              have hfiles : invoiceFilesOf inp = fs := by
                simp only [invoiceFilesOf, hz, hx]
              simp only [hemp, Bool.false_eq_true, if_false]
              unfold finalStateOf
              rw [hfiles]

theorem batchVerdicts_ne_nil (inp : RequestInput) (h : invoiceFilesOf inp ≠ []) :
    batchVerdicts inp ≠ [] := by
  unfold batchVerdicts
  cases hf : invoiceFilesOf inp with
  | nil => exact absurd hf h
  | cons a l =>
    simp only [List.map_cons, List.flatten_cons]
    intro hh
    exact processInvoice_verdicts_ne_nil inp.env a (List.append_eq_nil.mp hh).1


theorem analyze_fst (inp : RequestInput) :
    (analyze_invoices inp).1 = toResponse (bodyRun inp).1 := by
  simp only [analyze_invoices]

theorem analyze_calls (inp : RequestInput) :
    (analyze_invoices inp).2.llmCalls = (bodyRun inp).2 := by
  simp only [analyze_invoices]

/-- C1 counterexample: a batch of one invoice whose model reply is the
valid JSON object with the snake_case status key.  The stored verdict's
status is Declined, the verdict list is non-empty, yet overall_status
is "Mixed Status" rather than "All Declined", because the tally at
line 290 reads only the capitalized key. -/
theorem c1_counterexample :
    (analyze_invoices inSnake).1 = Response.ok "Mixed Status" [JTop.obj snakeResult] ∧
    statusOfT (JTop.obj snakeResult) = some (JVal.s "Declined") ∧
    ("Mixed Status" : String) ≠ "All Declined" :=
  ⟨by rfl, rfl, by decide⟩

/-- C1 (amended): if every JSON-object model reply leaves the
snake_case status key unused (as the instructed schema does), then for
every 200 response: overall_status is "All Fully Reimbursed" iff every
verdict's status is Fully Reimbursed, "All Declined" iff every
verdict's status is Declined, "Mixed Status" otherwise, and it is
"No Invoices Processed" iff the verdict list is empty. -/
theorem c1_overall_status_amended (inp : RequestInput) (ov : String) (res : List JTop)
    (H : capitalKeysOnly inp.env)
    (hrun : (analyze_invoices inp).1 = Response.ok ov res) :
    (res ≠ [] →
      ((ov = "All Fully Reimbursed" ↔
         ∀ v ∈ res, statusOfT v = some (JVal.s "Fully Reimbursed")) ∧
       (ov = "All Declined" ↔
         ∀ v ∈ res, statusOfT v = some (JVal.s "Declined")) ∧
       (¬(∀ v ∈ res, statusOfT v = some (JVal.s "Fully Reimbursed")) →
        ¬(∀ v ∈ res, statusOfT v = some (JVal.s "Declined")) →
        ov = "Mixed Status"))) ∧
    (ov = "No Invoices Processed" ↔ res = []) := by
  obtain ⟨hp, hov, hres⟩ := analyze_ok_inversion inp ov res hrun
  obtain ⟨hcf, hcd⟩ := final_counts inp H
  subst hov
  subst hres
  exact overallStatus_spec (finalStateOf inp).results (finalStateOf inp).fullyCount
    (finalStateOf inp).declinedCount hcf hcd

/-- C1 amended witness: the happy batch returns "All Fully Reimbursed"
and its single verdict's status is Fully Reimbursed. -/
theorem c1_overall_status_amended_witness :
    (([JTop.obj happyVerdict] : List JTop) ≠ [] →
      ((("All Fully Reimbursed" : String) = "All Fully Reimbursed" ↔
         ∀ v ∈ ([JTop.obj happyVerdict] : List JTop),
           statusOfT v = some (JVal.s "Fully Reimbursed")) ∧
       (("All Fully Reimbursed" : String) = "All Declined" ↔
         ∀ v ∈ ([JTop.obj happyVerdict] : List JTop),
           statusOfT v = some (JVal.s "Declined")) ∧
       (¬(∀ v ∈ ([JTop.obj happyVerdict] : List JTop),
            statusOfT v = some (JVal.s "Fully Reimbursed")) →
        ¬(∀ v ∈ ([JTop.obj happyVerdict] : List JTop),
            statusOfT v = some (JVal.s "Declined")) →
        ("All Fully Reimbursed" : String) = "Mixed Status"))) ∧
    (("All Fully Reimbursed" : String) = "No Invoices Processed" ↔
      ([JTop.obj happyVerdict] : List JTop) = []) :=
  c1_overall_status_amended inHappy "All Fully Reimbursed" [JTop.obj happyVerdict]
    (fun m o h => by injection h with h2; rw [← h2]; rfl) (by rfl)

/-- C2: an exception while processing one invoice (extraction failure,
model-call failure, malformed reply, or the AttributeError a non-object
reply provokes) is caught inside the loop and becomes a Declined
verdict with amount 0 whose reason carries the error message; the
batch still returns 200 with one verdict group per invoice, so a single
failure never aborts the batch. -/
theorem c2_invoice_failure_contained (inp : RequestInput) (m e : String)
    (hpre : preloopOk inp) (hfail : processFailure inp.env m = some e) :
    (∃ ov, (analyze_invoices inp).1 = Response.ok ov (batchVerdicts inp)) ∧
    (m ∈ invoiceFilesOf inp →
      JTop.obj (errorVerdict (pyBasename m) e) ∈ batchVerdicts inp) ∧
    statusOf (errorVerdict (pyBasename m) e) = some (JVal.s "Declined") ∧
    amountOf (errorVerdict (pyBasename m) e) = some (JVal.n 0) ∧
    reasonOf (errorVerdict (pyBasename m) e) = some (JVal.s ("Processing error: " ++ e)) := by
  refine ⟨⟨overallOf inp, ?_⟩, ?_, rfl, rfl, rfl⟩
  · rw [analyze_fst, bodyRun_of_preloop inp hpre]
    simp only [toResponse]
    rw [finalState_results]
  · intro hm
    exact mem_batchVerdicts_of_step inp m _ hm (processInvoice_of_failure inp.env m e hfail)

/-- C2 witness: the batch whose single invoice fails extraction. -/
theorem c2_invoice_failure_contained_witness :
    (∃ ov, (analyze_invoices inFail).1 = Response.ok ov (batchVerdicts inFail)) ∧
    ("a.pdf" ∈ invoiceFilesOf inFail →
      JTop.obj (errorVerdict (pyBasename "a.pdf") "Failed to extract text from PDF a.pdf: boom")
        ∈ batchVerdicts inFail) ∧
    statusOf (errorVerdict (pyBasename "a.pdf") "Failed to extract text from PDF a.pdf: boom") =
      some (JVal.s "Declined") ∧
    amountOf (errorVerdict (pyBasename "a.pdf") "Failed to extract text from PDF a.pdf: boom") =
      some (JVal.n 0) ∧
    reasonOf (errorVerdict (pyBasename "a.pdf") "Failed to extract text from PDF a.pdf: boom") =
      some (JVal.s ("Processing error: " ++ "Failed to extract text from PDF a.pdf: boom")) :=
  c2_invoice_failure_contained inFail "a.pdf" "Failed to extract text from PDF a.pdf: boom"
    ⟨by rfl, ⟨"policy text", by rfl, by rfl⟩, ⟨["a.pdf"], ["a.pdf"], rfl, by rfl, by decide⟩⟩
    (by rfl)

/-- C3 counterexample: the model replies with the valid JSON string
"Invoice identifier"; the handler appends it as-is at line 287, the
tally then raises and the except block appends a second, synthesized
verdict, so one PDF entry yields two result entries in a 200 response. -/
theorem c3_counterexample :
    (analyze_invoices inRaw).1 = Response.ok "Mixed Status"
      [JTop.raw "Invoice identifier",
       JTop.obj (errorVerdict "a.pdf" "'str' object has no attribute 'get'")] ∧
    pdfEntryCount inRaw = 1 ∧
    ([JTop.raw "Invoice identifier",
      JTop.obj (errorVerdict "a.pdf" "'str' object has no attribute 'get'")] : List JTop).length
      = 2 ∧
    (2 : Nat) ≠ 1 :=
  ⟨by rfl, by rfl, rfl, by decide⟩

/-- C3 (amended): if no model reply is a non-object JSON value that
survives the identifier-membership check, every 200 response carries
exactly one verdict per matching archive entry. -/
theorem c3_length_amended (inp : RequestInput) (ov : String) (res : List JTop)
    (hnr : ∀ m r g, inp.env.llm m ≠ LLMCallOutcome.okNonObj r g)
    (hrun : (analyze_invoices inp).1 = Response.ok ov res) :
    res.length = pdfEntryCount inp := by
  obtain ⟨hp, _, hres⟩ := analyze_ok_inversion inp ov res hrun
  obtain ⟨_, _, ns, fs, hz, hx, _⟩ := hp
  have hfiles : invoiceFilesOf inp = fs := by
    simp only [invoiceFilesOf, hz, hx]
  subst hres
  rw [finalState_results]
  unfold batchVerdicts
  rw [hfiles, List.length_flatten, List.map_map]
  have h1 : List.map (List.length ∘ fun p => (processInvoice inp.env p).verdicts) fs =
      List.map (fun _ => 1) fs := by
    apply List.map_congr_left
    intro a _
    exact step_len_one inp.env a (fun r g => hnr a r g)
  rw [h1]
  have h2 : ∀ t : List String, (List.map (fun _ => (1 : Nat)) t).sum = t.length := by
    intro t
    induction t with
    | nil => rfl
    | cons a l ih => simp [ih, Nat.add_comm]
  rw [h2 fs]
  simp only [pdfEntryCount, hz]
  rw [extractMembers_ok inp.memberFail ns fs hx]

/-- C3 amended witness: the happy batch has one PDF entry and one
verdict. -/
theorem c3_length_amended_witness :
    ([JTop.obj happyVerdict] : List JTop).length = pdfEntryCount inHappy :=
  c3_length_amended inHappy "All Fully Reimbursed" [JTop.obj happyVerdict]
    (fun m r g h => by simp [inHappy] at h) (by rfl)

/-- C4 counterexample: the verdict synthesized for an empty-text
invoice carries the reason sentence of line 275, which is not the
string "no readable text" the claim states. -/
theorem c4_counterexample :
    (analyze_invoices inBlank).1 =
      Response.ok "All Declined" [JTop.obj (emptyTextVerdict "a.pdf")] ∧
    reasonOf (emptyTextVerdict "a.pdf") =
      some (JVal.s "Could not extract readable text from this invoice PDF.") ∧
    ("Could not extract readable text from this invoice PDF." : String) ≠ "no readable text" :=
  ⟨by rfl, rfl, by decide⟩

/-- C4 (amended): an invoice whose text extracts empty or
whitespace-only yields exactly the synthesized verdict with status
Declined, amount 0 and reason "Could not extract readable text from
this invoice PDF.", and the model is not invoked for it. -/
theorem c4_blank_invoice_amended (inp : RequestInput) (m : String)
    (hb : blankTextAt inp.env m = true) :
    (processInvoice inp.env m).verdicts = [JTop.obj (emptyTextVerdict (pyBasename m))] ∧
    statusOf (emptyTextVerdict (pyBasename m)) = some (JVal.s "Declined") ∧
    amountOf (emptyTextVerdict (pyBasename m)) = some (JVal.n 0) ∧
    reasonOf (emptyTextVerdict (pyBasename m)) =
      some (JVal.s "Could not extract readable text from this invoice PDF.") ∧
    (processInvoice inp.env m).llmCalled = false ∧
    m ∉ (analyze_invoices inp).2.llmCalls := by
  have hstep := processInvoice_of_blank inp.env m hb
  refine ⟨by rw [hstep], rfl, rfl, rfl, by rw [hstep], ?_⟩
  rw [show (analyze_invoices inp).2.llmCalls = (bodyRun inp).2 from rfl]
  cases bodyRun_calls inp with
  | inl h => rw [h]; exact List.not_mem_nil m
  | inr h =>
    rw [h, finalState_calls]
    intro hmem
    rw [List.mem_filter] at hmem
    have hc := hmem.2
    rw [hstep] at hc
    simp at hc

/-- C4 amended witness: the blank-invoice batch. -/
theorem c4_blank_invoice_amended_witness :
    (processInvoice inBlank.env "a.pdf").verdicts =
      [JTop.obj (emptyTextVerdict (pyBasename "a.pdf"))] ∧
    statusOf (emptyTextVerdict (pyBasename "a.pdf")) = some (JVal.s "Declined") ∧
    amountOf (emptyTextVerdict (pyBasename "a.pdf")) = some (JVal.n 0) ∧
    reasonOf (emptyTextVerdict (pyBasename "a.pdf")) =
      some (JVal.s "Could not extract readable text from this invoice PDF.") ∧
    (processInvoice inBlank.env "a.pdf").llmCalled = false ∧
    "a.pdf" ∉ (analyze_invoices inBlank).2.llmCalls :=
  c4_blank_invoice_amended inBlank "a.pdf" (by rfl)

/-- C5 counterexample: a 200 response whose single verdict, built from
the model's parsed reply, has the empty string as its reason; the
handler performs no validation of the reason field. -/
theorem c5_counterexample :
    (analyze_invoices inReasonEmpty).1 =
      Response.ok "Mixed Status" [JTop.obj emptyReasonResult] ∧
    reasonOf emptyReasonResult = some (JVal.s "") :=
  ⟨by rfl, rfl⟩

/-- C5 (amended): every verdict of a 200 response either is the model's
own reply (possibly with the identifier key inserted) or is synthesized
by the orchestrator, and every synthesized verdict has a non-empty
reason string. -/
theorem c5_reason_amended (inp : RequestInput) (ov : String) (res : List JTop)
    (hrun : (analyze_invoices inp).1 = Response.ok ov res) :
    ∀ v ∈ res, (∃ m, m ∈ invoiceFilesOf inp ∧ isModelReply inp.env m v) ∨
      ∃ r, reasonOfT v = some (JVal.s r) ∧ r ≠ "" := by
  obtain ⟨hp, _, hres⟩ := analyze_ok_inversion inp ov res hrun
  subst hres
  rw [finalState_results]
  intro v hv
  unfold batchVerdicts at hv
  rw [List.mem_flatten] at hv
  obtain ⟨l, hl, hvl⟩ := hv
  rw [List.mem_map] at hl
  obtain ⟨m, hm, hml⟩ := hl
  subst hml
  cases step_reason inp.env m v hvl with
  | inl h => exact Or.inl ⟨m, hm, h⟩
  | inr h => exact Or.inr h

/-- C5 amended witness: the failing-extraction batch, whose synthesized
verdict has a non-empty reason. -/
theorem c5_reason_amended_witness :
    (∃ m, m ∈ invoiceFilesOf inFail ∧ isModelReply inFail.env m
        (JTop.obj (errorVerdict "a.pdf" "Failed to extract text from PDF a.pdf: boom"))) ∨
    ∃ r, reasonOfT (JTop.obj (errorVerdict "a.pdf" "Failed to extract text from PDF a.pdf: boom"))
        = some (JVal.s r) ∧ r ≠ "" :=
  c5_reason_amended inFail "All Declined"
    [JTop.obj (errorVerdict "a.pdf" "Failed to extract text from PDF a.pdf: boom")] (by rfl)
    (JTop.obj (errorVerdict "a.pdf" "Failed to extract text from PDF a.pdf: boom"))
    (List.mem_singleton.mpr rfl)

/-- C6: with the policy upload accepted, an archive entry is extracted
and processed iff its lowercased name ends in ".pdf" and it does not
start with "__MACOSX/"; and when no entry matches, the request is
rejected with the 400 error of line 257 instead of returning an empty
result. -/
theorem c6_entry_filter (inp : RequestInput) (ns fs : List String)
    (hz : inp.zip = ZipOutcome.entries ns)
    (hx : extractMembers inp.memberFail ns = Except.ok fs)
    (hname : pyEndsWith (pyLower inp.policyFilename) ".pdf" = true)
    (hpol : ∃ t, extract_text_from_pdf inp.policyFilename inp.policyPdf = ExtractOutcome.ok t ∧
      isBlankText t = false) :
    (∀ m, m ∈ fs ↔ (m ∈ ns ∧ isInvoiceEntry m = true)) ∧
    (ns.filter isInvoiceEntry = [] →
      (analyze_invoices inp).1 =
        Response.httpError 400 "No PDF invoice files found in the provided ZIP archive.") := by
  constructor
  · intro m
    rw [extractMembers_ok inp.memberFail ns fs hx]
    exact List.mem_filter
  · intro hnil
    have hfs : fs = [] := by rw [extractMembers_ok inp.memberFail ns fs hx, hnil]
    subst hfs
    obtain ⟨t, h2, h3⟩ := hpol
    rw [analyze_fst]
    unfold bodyRun
    simp only [hname, Bool.not_true, Bool.false_eq_true, if_false, h2, h3, hz, hx]
    rfl

/-- C6 witness: an archive with only a text file and a macOS metadata
entry is rejected with the 400 error. -/
theorem c6_entry_filter_witness :
    (∀ m, m ∈ ([] : List String) ↔
      (m ∈ ["readme.txt", "__MACOSX/b.pdf"] ∧ isInvoiceEntry m = true)) ∧
    ((["readme.txt", "__MACOSX/b.pdf"] : List String).filter isInvoiceEntry = [] →
      (analyze_invoices inNoPdfZip).1 =
        Response.httpError 400 "No PDF invoice files found in the provided ZIP archive.") :=
  c6_entry_filter inNoPdfZip ["readme.txt", "__MACOSX/b.pdf"] [] rfl (by rfl) (by rfl)
    ⟨"policy text", by rfl, by rfl⟩

/-- C7: a request whose policy filename does not end in ".pdf"
case-insensitively is rejected with the 400 error of line 240 and the
model is never invoked. -/
theorem c7_nonpdf_policy_rejected (inp : RequestInput)
    (h : pyEndsWith (pyLower inp.policyFilename) ".pdf" = false) :
    (analyze_invoices inp).1 = Response.httpError 400 "HR Policy file must be a PDF." ∧
    (analyze_invoices inp).2.llmCalls = [] := by
  constructor
  · rw [analyze_fst]
    unfold bodyRun
    simp only [h, Bool.not_false, if_true]
    rfl
  · rw [analyze_calls]
    unfold bodyRun
    simp only [h, Bool.not_false, if_true]

/-- C7 witness: uploading `policy.docx` as the policy. -/
theorem c7_nonpdf_policy_rejected_witness :
    (analyze_invoices inNonPdfPolicy).1 =
      Response.httpError 400 "HR Policy file must be a PDF." ∧
    (analyze_invoices inNonPdfPolicy).2.llmCalls = [] :=
  c7_nonpdf_policy_rejected inNonPdfPolicy (by rfl)

/-- C8: for every request the temporary directory created at line 226
no longer exists once the handler returns; the `finally` block of
lines 331-335 runs on the success, 400 and 500 exit paths alike. -/
theorem c8_tempdir_removed (inp : RequestInput) :
    (analyze_invoices inp).2.tempDirExists = false := rfl

/-- C9: a 200 response always carries a non-empty verdict list and its
overall_status is never "No Invoices Processed". -/
theorem c9_ok_response_nonempty (inp : RequestInput) (ov : String) (res : List JTop)
    (hrun : (analyze_invoices inp).1 = Response.ok ov res) :
    res ≠ [] ∧ ov ≠ "No Invoices Processed" := by
  obtain ⟨hp, hov, hres⟩ := analyze_ok_inversion inp ov res hrun
  obtain ⟨_, _, ns, fs, hz, hx, hne⟩ := hp
  have hfiles : invoiceFilesOf inp = fs := by
    simp only [invoiceFilesOf, hz, hx]
  have hres' : res ≠ [] := by
    rw [hres, finalState_results]
    apply batchVerdicts_ne_nil
    rw [hfiles]
    exact hne
  refine ⟨hres', ?_⟩
  have hlen : (finalStateOf inp).results.length > 0 := by
    cases hr : (finalStateOf inp).results with
    | nil => exfalso; apply hres'; rw [hres, hr]
    | cons a l => simp
  rw [hov]
  unfold overallOf overallStatus
  rw [if_pos hlen]
  split
  · decide
  · split
    · decide
    · decide

/-- C9 witness: the happy batch. -/
theorem c9_ok_response_nonempty_witness :
    ([JTop.obj happyVerdict] : List JTop) ≠ [] ∧
    ("All Fully Reimbursed" : String) ≠ "No Invoices Processed" :=
  c9_ok_response_nonempty inHappy "All Fully Reimbursed" [JTop.obj happyVerdict] (by rfl)

/-- C10: in one 200 response, the verdict synthesized for an empty-text
invoice uses the snake_case keys of lines 271-276 while the per-invoice
error verdict uses the capitalized schema keys of lines 300-305, and
the identifier key the model path inserts is the capitalized one of
lines 160-161; the two key lists differ, so the response is not
uniformly keyed. -/
theorem c10_mixed_key_schemas (inp : RequestInput) (m mf e : String)
    (hpre : preloopOk inp)
    (hm : m ∈ invoiceFilesOf inp) (hmf : mf ∈ invoiceFilesOf inp)
    (hb : blankTextAt inp.env m = true)
    (hf : processFailure inp.env mf = some e) :
    (∃ ov, (analyze_invoices inp).1 = Response.ok ov (batchVerdicts inp)) ∧
    JTop.obj (emptyTextVerdict (pyBasename m)) ∈ batchVerdicts inp ∧
    JTop.obj (errorVerdict (pyBasename mf) e) ∈ batchVerdicts inp ∧
    jkeys (emptyTextVerdict (pyBasename m)) =
      ["invoice_identifier", "reimbursement_status", "reimbursable_amount", "reason"] ∧
    jkeys (errorVerdict (pyBasename mf) e) =
      ["Invoice identifier", "Reimbursement Status", "Reimbursable Amount", "Reason"] ∧
    (∀ f o, jget "Invoice identifier" o = none →
      analyze_invoice_with_llm f (LLMCallOutcome.ok o) =
        Except.ok (JTop.obj (o ++ [("Invoice identifier", JVal.s f)]))) ∧
    (["invoice_identifier", "reimbursement_status", "reimbursable_amount", "reason"] :
        List String) ≠
      ["Invoice identifier", "Reimbursement Status", "Reimbursable Amount", "Reason"] := by
  refine ⟨⟨overallOf inp, ?_⟩, ?_, ?_, rfl, rfl, ?_, by decide⟩
  · rw [analyze_fst, bodyRun_of_preloop inp hpre]
    simp only [toResponse]
    rw [finalState_results]
  · apply mem_batchVerdicts_of_step inp m _ hm
    rw [processInvoice_of_blank inp.env m hb]
    simp
  · exact mem_batchVerdicts_of_step inp mf _ hmf (processInvoice_of_failure inp.env mf e hf)
  · intro f o ho
    simp only [analyze_invoice_with_llm, ho, Option.isSome_none, Bool.false_eq_true, if_false]

/-- C10 witness: the batch with one blank invoice and one failing
invoice. -/
theorem c10_mixed_key_schemas_witness :
    (∃ ov, (analyze_invoices inMixed).1 = Response.ok ov (batchVerdicts inMixed)) ∧
    JTop.obj (emptyTextVerdict (pyBasename "blank.pdf")) ∈ batchVerdicts inMixed ∧
    JTop.obj (errorVerdict (pyBasename "bad.pdf") "Failed to extract text from PDF bad.pdf: boom")
      ∈ batchVerdicts inMixed ∧
    jkeys (emptyTextVerdict (pyBasename "blank.pdf")) =
      ["invoice_identifier", "reimbursement_status", "reimbursable_amount", "reason"] ∧
    jkeys (errorVerdict (pyBasename "bad.pdf") "Failed to extract text from PDF bad.pdf: boom") =
      ["Invoice identifier", "Reimbursement Status", "Reimbursable Amount", "Reason"] ∧
    (∀ f o, jget "Invoice identifier" o = none →
      analyze_invoice_with_llm f (LLMCallOutcome.ok o) =
        Except.ok (JTop.obj (o ++ [("Invoice identifier", JVal.s f)]))) ∧
    (["invoice_identifier", "reimbursement_status", "reimbursable_amount", "reason"] :
        List String) ≠
      ["Invoice identifier", "Reimbursement Status", "Reimbursable Amount", "Reason"] :=
  c10_mixed_key_schemas inMixed "blank.pdf" "bad.pdf"
    "Failed to extract text from PDF bad.pdf: boom"
    ⟨by rfl, ⟨"policy text", by rfl, by rfl⟩,
      ⟨["blank.pdf", "bad.pdf"], ["blank.pdf", "bad.pdf"], rfl, by rfl, by decide⟩⟩
    (by decide) (by decide) (by rfl) (by rfl)

end InvoiceApp
